import Mathlib

/-!
Verification of the changelog generator (`src/generate_changelog.py`).

The Python source is embedded shallowly: every regex used by the script is
translated into an executable character-list matcher reproducing Python
`re` semantics (leftmost search, greedy/non-greedy repetition with
backtracking) for the exact pattern that appears in the source, and the
file-update and orchestration logic becomes pure functions over explicit
state (the previous file content is a parameter, the written content the
result).  All text is treated as ASCII, which is the alphabet the script's
patterns and inputs use.
-/

/-- Python `\s` for ASCII text: the whitespace characters recognised by
`re` and by `str.strip()` / `str.rstrip()`. -/
def pyIsSpace (c : Char) : Bool :=
  c == ' ' || c == '\t' || c == '\n' || c == '\r' || c == '\x0B' || c == '\x0C'

/-- ASCII digit, Python `\d` on ASCII text. -/
def isAsciiDigit (c : Char) : Bool := '0' ≤ c && c ≤ '9'

/-- ASCII upper-case letter, the class `[A-Z]`. -/
def isAsciiUpper (c : Char) : Bool := 'A' ≤ c && c ≤ 'Z'

/-- ASCII letter, part of the class `[a-zA-Z0-9.]`. -/
def isAsciiAlpha (c : Char) : Bool :=
  ('A' ≤ c && c ≤ 'Z') || ('a' ≤ c && c ≤ 'z')

/-- Python `str.strip()` on ASCII text: drop leading and trailing whitespace. -/
def pyStrip (s : String) : String :=
  String.mk (((s.data.dropWhile pyIsSpace).reverse.dropWhile pyIsSpace).reverse)

/-- Python `str.rstrip()` on ASCII text: drop trailing whitespace. -/
def pyRStrip (s : String) : String :=
  String.mk ((s.data.reverse.dropWhile pyIsSpace).reverse)

/-- Python `str.lower()` restricted to ASCII letters. -/
def asciiLowerChar (c : Char) : Char :=
  if isAsciiUpper c then Char.ofNat (c.toNat + 32) else c

/-- Lower-case an ASCII string, Python `text.lower()`. -/
def asciiLower (s : String) : String := String.mk (s.data.map asciiLowerChar)

/-- Does `pat` occur as a contiguous sublist of `s`?  This is Python's
`re.search` of an escaped literal (equivalently `pat in s`). -/
def subOccurs (pat : List Char) : List Char → Bool
  | [] => pat.isPrefixOf []
  | s@(_ :: rest) => pat.isPrefixOf s || subOccurs pat rest

/-- String version of `subOccurs`: `pat` occurs as a substring of `s`. -/
def strContains (s pat : String) : Bool := subOccurs pat.data s.data

/-- Number of positions of `s` at which `pat` occurs (overlapping
occurrences each counted); used only to state properties of outputs. -/
def subCount (pat : List Char) : List Char → Nat
  | [] => if pat.isPrefixOf ([] : List Char) then 1 else 0
  | s@(_ :: rest) => (if pat.isPrefixOf s then 1 else 0) + subCount pat rest

/-- String version of `subCount`. -/
def strCount (s pat : String) : Nat := subCount pat.data s.data

/-- Python `content.split(:newline:)`: split at every newline, keeping
empty pieces. -/
def splitNl : List Char → List (List Char)
  | [] => [[]]
  | c :: rest =>
    match splitNl rest with
    | [] => [[c]]
    | l :: ls => if c == '\n' then [] :: l :: ls else (c :: l) :: ls

/-- Lines of a string, Python `s.split` on a newline separator. -/
def strLines (s : String) : List String := (splitNl s.data).map String.mk

/-- Python `", ".join(related_issues)`. -/
def joinComma : List String → String
  | [] => ""
  | [x] => x
  | x :: y :: xs => x ++ ", " ++ joinComma (y :: xs)

/-! ### The section regex

`extract_changelog_section` (source line 117) searches the description for
`### <section_name>\s+(.+?)(?=\s+---|\s+###|\Z)` with `DOTALL`;
`extract_related_issues` (line 149) uses the same shape with the literal
`## Related Issues` and the lookahead marker `##`.  The translation below
reproduces `re.search`: scan start positions from the left; at a start
position the literal heading must match, then `\s+` (greedy, backtracked
from the longest whitespace run down to one character), then the
non-greedy body `(.+?)` grows one character at a time (any character, by
`DOTALL`) until the lookahead holds.  Inside the lookahead,
`\s+---` / `\s+##(#)` force the whole whitespace run to be consumed,
because neither `-` nor `#` is a whitespace character. -/

/-- The lookahead `(?=\s+---|\s+<marker>|\Z)` at the remaining text `u`. -/
def lookaheadOk (marker : List Char) (u : List Char) : Bool :=
  u.isEmpty ||
    (let r := (u.takeWhile pyIsSpace).length
     decide (1 ≤ r) &&
       (let w := u.drop r
        (['-', '-', '-']).isPrefixOf w || marker.isPrefixOf w))

/-- Grow the non-greedy body one character at a time until the lookahead
holds; `acc` holds the (reversed) body collected so far. -/
def growBody (marker acc : List Char) : List Char → Option (List Char)
  | [] => if lookaheadOk marker [] then some acc.reverse else none
  | u@(c :: u') =>
    if lookaheadOk marker u then some acc.reverse
    else growBody marker (c :: acc) u'

/-- The body `(.+?)` must contain at least one character; take it, then
grow until the lookahead holds. -/
def takeBody (marker : List Char) : List Char → Option (List Char)
  | [] => none
  | c :: u => growBody marker [c] u

/-- Backtracking of the greedy `\s+` after the heading: try consuming `k`
whitespace characters, from the longest run down to a single one. -/
def tryWsBody (marker rest : List Char) : Nat → Option (List Char)
  | 0 => none
  | k + 1 =>
    match takeBody marker (rest.drop (k + 1)) with
    | some b => some b
    | none => tryWsBody marker rest k

/-- Match `\s+(.+?)(?=...)` immediately after the heading literal. -/
def afterHeading (marker rest : List Char) : Option (List Char) :=
  tryWsBody marker rest ((rest.takeWhile pyIsSpace).length)

/-- `re.search` for the whole section pattern: scan start positions from
the left; where the heading literal matches but the remainder does not,
move one position to the right, as the Python engine does. -/
def searchBlock (lit marker : List Char) : List Char → Option (List Char)
  | [] => none
  | s@(_ :: rest) =>
    if lit.isPrefixOf s then
      match afterHeading marker (s.drop lit.length) with
      | some b => some b
      | none => searchBlock lit marker rest
    else searchBlock lit marker rest

/-! ### The bullet regex

Inside a located section, each line is matched (after `line.strip()`)
against `\*\*([^:]+)\*\*:\s*\[?([^\]].+)` (source line 134) with
`re.search`.  At a given start the pattern needs `**`; then `([^:]+)`
holds no colon, so the `:` of the following literal `**:` is the first
colon after the start, which determines the first group; then `\s*`
(greedy, backtracked), an optional `[`, one character other than `]`, and
`.+` (greedy: everything up to the end of the line, `.` not crossing a
newline). -/

/-- Match `[^\]].+` at `t`: one character other than `]`, then at least
one more character other than a newline, extended greedily. -/
def g2Core : List Char → Option (List Char)
  | c :: e :: d =>
    if c != ']' && e != '\n' then some (c :: e :: d.takeWhile (· != '\n'))
    else none
  | _ => none

/-- Match `\[?([^\]].+)` at `t`: prefer consuming a leading `[`; if the
rest then fails, backtrack and leave the `[` to the character class. -/
def g2At (t : List Char) : Option (List Char) :=
  match t with
  | '[' :: u =>
    match g2Core u with
    | some g => some g
    | none => g2Core t
  | _ => g2Core t

/-- Backtracking of the greedy `\s*` after the colon: try consuming `k`
whitespace characters, from the longest run down to zero. -/
def tryWsG2 (tail : List Char) : Nat → Option (List Char)
  | 0 => g2At tail
  | k + 1 =>
    match g2At (tail.drop (k + 1)) with
    | some g => some g
    | none => tryWsG2 tail k

/-- Match `\s*\[?([^\]].+)` right after the colon. -/
def afterColon (tail : List Char) : Option (List Char) :=
  tryWsG2 tail ((tail.takeWhile pyIsSpace).length)

/-- Attempt the bullet pattern at the start of `s`.  The characters
before the first colon must end in `**` (the literal `\*\*` preceding
`:`), with at least one character for the group `([^:]+)` in between. -/
def bulletHere (s : List Char) : Option (List Char × List Char) :=
  match s with
  | '*' :: '*' :: rest =>
    let pre := rest.takeWhile (· != ':')
    match rest.drop pre.length with
    | ':' :: tail =>
      if 3 ≤ pre.length && (pre.getLast? == some '*') &&
          (pre.dropLast.getLast? == some '*') then
        match afterColon tail with
        | some g2 => some (pre.dropLast.dropLast, g2)
        | none => none
      else none
    | _ => none
  | _ => none

/-- `re.search` of the bullet pattern: leftmost start position at which
the whole pattern matches. -/
def bulletFind : List Char → Option (List Char × List Char)
  | [] => none
  | s@(_ :: rest) =>
    match bulletHere s with
    | some r => some r
    | none => bulletFind rest

/-- A categorized changelog entry (source lines 136-142). -/
structure ChangeItem where
  category : String
  text : String
deriving DecidableEq, Repr

/-- Remove a single trailing `]`, Python `re.sub` of the anchored
pattern mapping a closing bracket at the end of the text to nothing
(source line 139). -/
def stripTrailingBracket (s : String) : String :=
  if s.data.getLast? == some ']' then String.mk s.data.dropLast else s

/-- One iteration of the line loop in `extract_changelog_section`
(source lines 128-142): skip blank lines and HTML comments, match the
bullet pattern on the stripped line, strip the groups, drop a trailing
`]`, and keep the item unless the text is empty or equals the literal
placeholder after lower-casing. -/
def lineItem (line : String) : Option ChangeItem :=
  let stripped := pyStrip line
  if stripped == "" then none
  else if ("<!--").data.isPrefixOf stripped.data then none
  else
    match bulletFind stripped.data with
    | none => none
    | some (g1, g2) =>
      let category := pyStrip (String.mk g1)
      let text := pyStrip (stripTrailingBracket (pyStrip (String.mk g2)))
      if text != "" && asciiLower text != "[none]" then
        some { category := category, text := text }
      else none

/-- `extract_changelog_section` (source lines 115-145): locate the block
between `### <section_name>` and the next `---` divider, `###` heading or
end of text, then collect the bullet items of its lines. -/
def extract_changelog_section (description section_name : String) : List ChangeItem :=
  match searchBlock (("### " ++ section_name)).data ("###").data description.data with
  | none => []
  | some body =>
    ((splitNl (pyStrip (String.mk body)).data).map String.mk).filterMap lineItem

/-! ### The target-version regex

`extract_target_version` (source lines 91-107) searches for
`## Target Version\s+[`\[]?([vV]?\d+\.\d+\.\d+(?:-[a-zA-Z0-9.]+)?)[`\]]?`.
After the literal heading the greedy `\s+` must consume the whole
whitespace run (no character admissible next is whitespace); the optional
opener, optional `v`/`V` and each greedy digit run are forced (skipping
them can never save a failing match, since the character that made them
match cannot match what follows); the optional trailing closer cannot
fail.  Where the tail fails, the engine moves the start to the next
occurrence of the heading literal. -/

/-- Character class `[a-zA-Z0-9.]` of the prerelease suffix. -/
def isPreChar (c : Char) : Bool := isAsciiDigit c || isAsciiAlpha c || c == '.'

/-- Match the version tail right after the literal `## Target Version`,
returning the captured group. -/
def matchVersionAfter (rest : List Char) : Option (List Char) :=
  let r := (rest.takeWhile pyIsSpace).length
  if r == 0 then none
  else
    let t := rest.drop r
    let t1 := match t with
      | '`' :: u => u
      | '[' :: u => u
      | _ => t
    let vpre : List Char := match t1 with
      | 'v' :: _ => ['v']
      | 'V' :: _ => ['V']
      | _ => []
    let t2 := t1.drop vpre.length
    let d1 := t2.takeWhile isAsciiDigit
    if d1.isEmpty then none
    else
      match t2.drop d1.length with
      | '.' :: t3 =>
        let d2 := t3.takeWhile isAsciiDigit
        if d2.isEmpty then none
        else
          match t3.drop d2.length with
          | '.' :: t4 =>
            let d3 := t4.takeWhile isAsciiDigit
            if d3.isEmpty then none
            else
              let t5 := t4.drop d3.length
              let pre : List Char := match t5 with
                | '-' :: u =>
                  let p := u.takeWhile isPreChar
                  if p.isEmpty then [] else '-' :: p
                | _ => []
              some (vpre ++ d1 ++ '.' :: d2 ++ '.' :: d3 ++ pre)
          | _ => none
      | _ => none

/-- The heading literal of the target-version pattern. -/
def targetVersionLit : List Char := ("## Target Version").data

/-- `re.search` of the version pattern: leftmost occurrence of the
heading literal whose tail also matches. -/
def searchVersion : List Char → Option (List Char)
  | [] => none
  | s@(_ :: rest) =>
    if targetVersionLit.isPrefixOf s then
      match matchVersionAfter (s.drop targetVersionLit.length) with
      | some v => some v
      | none => searchVersion rest
    else searchVersion rest

/-- `extract_target_version` (source lines 91-107): the captured token,
with `v` prepended when the token does not start with a lower-case `v`
(`version.startswith` is case-sensitive); the sentinel when the pattern
does not match. -/
def extract_target_version (description : String) : String :=
  match searchVersion description.data with
  | some g =>
    if g.head? == some 'v' then String.mk g else "v" ++ String.mk g
  | none => "notarget"

/-! ### The related-issues regexes

`extract_related_issues` (source lines 147-171) locates the block after
`## Related Issues` (same section shape, with lookahead marker `##`) and
runs two `findall`s per non-blank line: `#(\d+)` and `([A-Z]+-\d+)`. -/

/-- `re.findall` of `#(\d+)`: scan left to right; at a `#` followed by at
least one digit, capture the maximal digit run.  Scanning may simply
advance one character even after a match, because a digit can never start
a new match. -/
def findNums : List Char → List (List Char)
  | [] => []
  | '#' :: rest =>
    let ds := rest.takeWhile isAsciiDigit
    if ds.isEmpty then findNums rest else ds :: findNums rest
  | _ :: rest => findNums rest

/-- `re.findall` of `([A-Z]+-\d+)`, fuelled by the input length: at an
upper-case letter, the greedy `[A-Z]+` takes the maximal run (a shorter
run leaves a letter where `-` is required), then `-` and a maximal digit
run; on success scanning resumes after the match (matches do not
overlap), on failure one character later.  Each step consumes at least
one character, so `length` fuel suffices. -/
def findJiraAux : Nat → List Char → List (List Char)
  | 0, _ => []
  | _ + 1, [] => []
  | fuel + 1, s@(c :: rest) =>
    if isAsciiUpper c then
      let letters := s.takeWhile isAsciiUpper
      match s.drop letters.length with
      | '-' :: r2 =>
        let ds := r2.takeWhile isAsciiDigit
        if ds.isEmpty then findJiraAux fuel rest
        else (letters ++ '-' :: ds) :: findJiraAux fuel (r2.drop ds.length)
      | _ => findJiraAux fuel rest
    else findJiraAux fuel rest

/-- `re.findall` of `([A-Z]+-\d+)` over a line. -/
def findJira (l : List Char) : List (List Char) := findJiraAux l.length l

/-- The per-line collection step (source lines 159-169): skip blank
lines; otherwise the numeric matches of the raw line followed by its
ticket-style matches. -/
def lineIssues (line : String) : List String :=
  if pyStrip line == "" then []
  else (findNums line.data).map String.mk ++ (findJira line.data).map String.mk

/-- `extract_related_issues` (source lines 147-171). -/
def extract_related_issues (description : String) : List String :=
  match searchBlock ("## Related Issues").data ("##").data description.data with
  | none => []
  | some body =>
    (((splitNl (pyStrip (String.mk body)).data).map String.mk).map lineIssues).flatten

/-! ### Configuration and the changelog file merger

`ChangelogGenerator.__init__` (source lines 26-57) loads the settings
below from the environment; the commit-related settings drive only the
external git collaborator and are not part of the merge logic.
`update_changelog_file` (source lines 173-248) reads one file, builds the
merged content in memory and writes it back; it is embedded as a pure
function from the previous file content (`none` when the file does not
yet exist) to the content written. -/

/-- The environment-derived configuration fields used by the merge and
orchestration logic.  `today` is the already-formatted current date
(source line 57). -/
structure Config where
  changelog_dir : String
  client_subdir : String
  internal_subdir : String
  unified_changelog : Bool
  unified_format : String
  single_file : Bool
  single_filename : String
  include_date_in_version : Bool
  today : String
  pr_number : String
deriving DecidableEq, Repr

/-- `get_version_with_date` (source lines 109-113). -/
def get_version_with_date (cfg : Config) (version : String) : String :=
  if cfg.include_date_in_version then version ++ " (" ++ cfg.today ++ ")"
  else version

/-- Destination path of `update_changelog_file` (source lines 178-188),
with `/` joining the path segments. -/
def update_changelog_path (cfg : Config) (raw_version section_type : String) : String :=
  if cfg.single_file then cfg.changelog_dir ++ "/" ++ cfg.single_filename
  else if cfg.unified_changelog then
    cfg.changelog_dir ++ "/" ++ raw_version ++ ".md"
  else
    cfg.changelog_dir ++ "/" ++
      (if section_type == "client" then cfg.client_subdir else cfg.internal_subdir) ++
      "/" ++ raw_version ++ ".md"

/-- The header written when the file does not yet exist (source lines
190-202). -/
def newFileHeader (cfg : Config) (version_with_date section_type : String) : String :=
  if cfg.single_file then "# Changelog\n\n"
  else if cfg.unified_changelog then "# " ++ version_with_date ++ " Changelog\n\n"
  else if section_type == "client" then "# " ++ version_with_date ++ "\n\n"
  else "# " ++ version_with_date ++ " Internal Changelog\n\n"

/-- One step of the grouping loop (source lines 208-213): a Python dict
keyed by category, in insertion order of first occurrence, each key
holding the texts in source order. -/
def addChange (acc : List (String × List String)) (c : ChangeItem) :
    List (String × List String) :=
  if acc.any (fun p => p.1 == c.category) then
    acc.map (fun p => if p.1 == c.category then (p.1, p.2 ++ [c.text]) else p)
  else acc ++ [(c.category, [c.text])]

/-- `changes_by_category` (source lines 208-213). -/
def changesByCategory (changes : List ChangeItem) : List (String × List String) :=
  changes.foldl addChange []

/-- One category section of the appended block (source lines 238-242). -/
def categoryBlock (sf : Bool) (p : String × List String) : String :=
  "\n" ++ (if sf then "###" else "##") ++ " " ++ p.1 ++ "\n\n" ++
    String.join (p.2.map (fun item => "- " ++ item ++ "\n"))

/-- The category sections of the appended block (source lines 238-242). -/
def categoriesPart (sf : Bool) (groups : List (String × List String)) : String :=
  String.join (groups.map (categoryBlock sf))

/-- The single-file existing-version check (source lines 219-221).  The
code searches `content` for `## <re.escape(raw_version)>` followed by
`\s*` and an optional parenthesised group; both of those suffix parts
match the empty string, so the search succeeds exactly when the literal
`## <raw_version>` occurs as a substring of the content. -/
def versionHeadingPresent (content raw_version : String) : Bool :=
  strContains content ("## " ++ raw_version)

/-- The content the merge starts from: the previous file content, or the
fresh header just written when the file did not exist (source lines
190-206). -/
def mergeBaseContent (cfg : Config) (existing : Option String)
    (version_with_date section_type : String) : String :=
  match existing with
  | none => newFileHeader cfg version_with_date section_type
  | some c => c

/-- The single-file version heading appended when no heading for this raw
version is present yet (source lines 217-222); empty in the other modes. -/
def mergeVersionPart (cfg : Config) (content raw_version version_with_date : String) :
    String :=
  if cfg.single_file then
    if versionHeadingPresent content raw_version then ""
    else "\n\n## " ++ version_with_date ++ "\n"
  else ""

/-- The PR heading line (source lines 224-231): omitted for client-type
blocks, `###` level in single-file mode, `##` level otherwise. -/
def mergePrPart (cfg : Config) (section_type pr_number pr_title : String) : String :=
  if cfg.single_file then
    if section_type == "client" then ""
    else "\n\n### PR #" ++ pr_number ++ ": " ++ pr_title ++ "\n"
  else
    if section_type == "client" then ""
    else "\n\n## PR #" ++ pr_number ++ ": " ++ pr_title ++ "\n"

/-- The optional related-issues line (source lines 233-236): present
exactly when the block is not client-type or the layout is single-file,
and the issue list is non-empty (Python `related_issues` is falsy when
`None` or empty). -/
def mergeIssuesPart (cfg : Config) (section_type : String)
    (related_issues : List String) : String :=
  if (section_type != "client" || cfg.single_file) && !related_issues.isEmpty then
    "\n**Related Issues:** " ++ joinComma related_issues ++ "\n"
  else ""

/-- The content written by `update_changelog_file` (source lines
190-245): the previous content (or the fresh header), right-stripped,
followed in order by the single-file version heading, the PR heading
line, the optional related-issues line, and the category sections. -/
def update_changelog_file (cfg : Config) (existing : Option String)
    (version section_type : String) (changes : List ChangeItem)
    (pr_number pr_title : String) (related_issues : List String) : String :=
  let version_with_date := get_version_with_date cfg version
  let content := mergeBaseContent cfg existing version_with_date section_type
  pyRStrip content ++
    (mergeVersionPart cfg content version version_with_date ++
      (mergePrPart cfg section_type pr_number pr_title ++
        (mergeIssuesPart cfg section_type related_issues ++
          categoriesPart cfg.single_file (changesByCategory changes))))

/-! ### The run orchestrator

`run` (source lines 313-379) fetches the PR description, extracts, and
calls `update_changelog_file` per configured layout.  The GitHub fetch
is the external collaborator: `get_pr_description` (source lines 81-89)
returns `(None, None)` when the fetch raises, and `(pr.body, pr.title)`
otherwise — `pr.body` itself may be `None` or empty.
`setup_directories` only creates directories, never changelog files, so
file writes happen solely through `update_changelog_file`; the outcome
below records each such call together with the content it writes.  The
commit step consumes the collected paths and is external. -/

/-- The outcome of the external PR fetch. -/
inductive FetchResult where
  | failure
  | success (body : Option String) (title : String)
deriving DecidableEq, Repr

/-- `get_pr_description` (source lines 81-89). -/
def get_pr_description : FetchResult → Option String × Option String
  | .failure => (none, none)
  | .success body title => (body, some title)

/-- Python truthiness test `if not description` (source line 320): `None`
and the empty string are falsy. -/
def descriptionFalsy : Option String → Bool
  | none => true
  | some s => s == ""

/-- One recorded call of `update_changelog_file`, with the path written,
the arguments that shape the block, and the content written. -/
structure MergeCall where
  path : String
  version : String
  section_type : String
  changes : List ChangeItem
  related_issues : List String
  content : String
deriving DecidableEq, Repr

/-- The observable outcome of `run`: `sys.exit` with a code before any
changelog file is touched, or completion with the sequence of merge
calls (the files written, in order). -/
inductive RunOutcome where
  | exited (code : Nat)
  | completed (calls : List MergeCall)
deriving DecidableEq, Repr

/-- Perform one `update_changelog_file` call against the file system
`fs` (path ↦ current content), returning the recorded call and the file
system after the write. -/
def mergeStep (cfg : Config) (fs : String → Option String)
    (version section_type : String) (changes : List ChangeItem)
    (pr_title : String) (related_issues : List String) :
    MergeCall × (String → Option String) :=
  let path := update_changelog_path cfg version section_type
  let newContent := update_changelog_file cfg (fs path) version section_type
    changes cfg.pr_number pr_title related_issues
  ({ path := path, version := version, section_type := section_type,
     changes := changes, related_issues := related_issues,
     content := newContent },
   fun p => if p == path then some newContent else fs p)

/-- `run` (source lines 313-379) over an explicit file system. -/
def run (cfg : Config) (fetch : FetchResult) (fs : String → Option String) :
    RunOutcome :=
  let dt := get_pr_description fetch
  if descriptionFalsy dt.1 then .exited 1
  else
    let d := dt.1.getD ("")
    let pr_title := dt.2.getD ("")
    let client_changes := extract_changelog_section d ("Client-Facing Changes")
    let internal_changes := extract_changelog_section d ("Internal Changes")
    let related_issues := extract_related_issues d
    let version := extract_target_version d
    if cfg.unified_changelog || cfg.single_file then
      let all_changes := client_changes ++ internal_changes
      if all_changes.isEmpty then .completed []
      else
        let format_type :=
          if cfg.unified_format == "client" || cfg.unified_format == "internal" then
            cfg.unified_format
          else "client"
        let step := mergeStep cfg fs version format_type all_changes pr_title
          related_issues
        .completed [step.1]
    else
      if client_changes.isEmpty then
        if internal_changes.isEmpty then .completed []
        else
          let step := mergeStep cfg fs version ("internal") internal_changes
            pr_title related_issues
          .completed [step.1]
      else
        let stepC := mergeStep cfg fs version ("client") client_changes
          pr_title related_issues
        if internal_changes.isEmpty then .completed [stepC.1]
        else
          let stepI := mergeStep cfg stepC.2 version ("internal")
            internal_changes pr_title related_issues
          .completed [stepC.1, stepI.1]

/-! ### Shared concrete instances used by the theorems -/

/-- A separate-layout configuration (the source defaults with the date
display disabled). -/
def cfgSeparate : Config where
  changelog_dir := "changelog"
  client_subdir := "client"
  internal_subdir := "internal"
  unified_changelog := false
  unified_format := "client"
  single_file := false
  single_filename := "CHANGELOG.md"
  include_date_in_version := false
  today := "2026-10-12"
  pr_number := "1"

/-- The single-file configuration variant. -/
def cfgSingle : Config := { cfgSeparate with single_file := true }

/-- A one-item change set. -/
def demoItem : ChangeItem := { category := "A", text := "x" }

/-- First merge of `demoItem` into a fresh separate-mode internal file. -/
def demoSepOnce : String :=
  update_changelog_file cfgSeparate none ("v1.0.0") ("internal") [demoItem]
    ("1") ("T") ["9"]

/-- Second merge of the same change set into the same file. -/
def demoSepTwice : String :=
  update_changelog_file cfgSeparate (some demoSepOnce) ("v1.0.0") ("internal")
    [demoItem] ("1") ("T") ["9"]

/-- First single-file merge for version v1.0.0 (PR 1). -/
def demoSingleOnce : String :=
  update_changelog_file cfgSingle none ("v1.0.0") ("internal") [demoItem]
    ("1") ("T1") []

/-- Second single-file merge for the same version (PR 2). -/
def demoSingleTwice : String :=
  update_changelog_file cfgSingle (some demoSingleOnce) ("v1.0.0") ("internal")
    [{ category := "B", text := "y" }] ("2") ("T2") []

/-- If the heading literal `## Target Version` occurs nowhere in the
text, the version search fails. -/
theorem searchVersion_eq_none :
    ∀ l : List Char, subOccurs targetVersionLit l = false → searchVersion l = none := by
  intro l
  induction l with
  | nil => intro h; rfl
  | cons c rest ih =>
    intro h
    simp only [subOccurs, Bool.or_eq_false_iff] at h
    simp only [searchVersion, h.1, Bool.false_eq_true, if_false]
    exact ih h.2

/-- A list all of whose members fail a predicate has an empty
`takeWhile`; stated for the digit class over sublists of a digit-free
text. -/
theorem digit_takeWhile_nil {rest : List Char}
    (h : ∀ c ∈ rest, isAsciiDigit c = false) {l : List Char} (hl : l ⊆ rest) :
    l.takeWhile isAsciiDigit = [] := by
  cases l with
  | nil => rfl
  | cons c u =>
    have hc : isAsciiDigit c = false := h c (hl (List.mem_cons_self c u))
    simp [List.takeWhile_cons, hc]

/-- The version tail cannot match in a digit-free text: the mandatory
first digit run `\d+` of the captured group comes up empty. -/
theorem matchVersionAfter_eq_none (rest : List Char)
    (h : ∀ c ∈ rest, isAsciiDigit c = false) : matchVersionAfter rest = none := by
  have hT : rest.drop ((rest.takeWhile pyIsSpace).length) ⊆ rest := List.drop_subset _ _
  simp only [matchVersionAfter]
  split
  · rfl
  · split
    · rfl
    · rename_i heq
      refine absurd ?_ heq
      rw [digit_takeWhile_nil h]
      · rfl
      · intro c hc
        have hc2 := List.drop_subset _ _ hc
        split at hc2
        · rename_i u heq2
          exact hT (by rw [heq2]; exact List.mem_cons_of_mem _ hc2)
        · rename_i u heq2
          exact hT (by rw [heq2]; exact List.mem_cons_of_mem _ hc2)
        · exact hT hc2

/-- In a digit-free text the version search fails at every start
position, so the whole search returns nothing — even when the heading
literal is present but no version token follows. -/
theorem searchVersion_eq_none_of_no_digit :
    ∀ l : List Char, (∀ c ∈ l, isAsciiDigit c = false) → searchVersion l = none := by
  intro l
  induction l with
  | nil => intro h; rfl
  | cons c rest ih =>
    intro h
    simp only [searchVersion]
    by_cases hp : targetVersionLit.isPrefixOf (c :: rest) = true
    · rw [if_pos hp, matchVersionAfter_eq_none _ (fun x hx => h x (List.drop_subset _ _ hx))]
      exact ih (fun x hx => h x (List.mem_cons_of_mem _ hx))
    · rw [if_neg hp]
      exact ih (fun x hx => h x (List.mem_cons_of_mem _ hx))

/-! ### The claims -/

/-- C1: inside a located section, the bullet line with plain text yields
its item and a bracketed text has the trailing bracket stripped — but the
line with the `[none]` placeholder is NOT discarded: the leading `[` is
consumed by the optional bracket of the pattern and the trailing `]` is
stripped before the guard compares against the literal placeholder, so
the code produces the item with text `none` where the specification
requires no item.  (A bracketed blank is discarded via the emptiness
guard.) -/
theorem claim_C1 :
    extract_changelog_section
        ("### Changes\n- **Cat**: text\n- **Cat**: [text]\n- **Cat**: [ ]\n- **Cat**: [none]")
        ("Changes") =
      [{ category := "Cat", text := "text" },
        { category := "Cat", text := "text" },
        { category := "Cat", text := "none" }] := by decide

/-- C2 counterexample: the claim states that a token already starting
with upper-case `V` does not receive a second prefix, so on the
description below it predicts the result `V1.2.3`; the code's
`startswith` check is case-sensitive and the extractor actually returns
`vV1.2.3`. -/
theorem claim_C2_counterexample :
    extract_target_version ("## Target Version\nV1.2.3") = "vV1.2.3" ∧
    (extract_target_version ("## Target Version\nV1.2.3") == "V1.2.3") = false := by
  decide

/-- C2 (amended): the extractor returns `v1.2.3` for the plain token and
prepends `v` to the bare token `1.2.3`; when the section or the token is
absent it returns the sentinel `notarget` — concretely for a heading
followed by no token (`foo`, an incomplete `1.2`, or nothing at all),
generally for every description without the heading literal, and
generally for every digit-free description, heading present or not; the
`v` prefix is enforced by a case-sensitive check for lower-case `v`, so
a token beginning with upper-case `V` receives an additional prefix,
giving `vV1.2.3`. -/
theorem claim_C2 :
    extract_target_version ("## Target Version\nv1.2.3") = "v1.2.3" ∧
    extract_target_version ("## Target Version\n1.2.3") = "v1.2.3" ∧
    extract_target_version ("## Target Version\nV1.2.3") = "vV1.2.3" ∧
    extract_target_version ("## Target Version\nfoo") = "notarget" ∧
    extract_target_version ("## Target Version\n1.2") = "notarget" ∧
    extract_target_version ("## Target Version\n") = "notarget" ∧
    (∀ d : String, strContains d ("## Target Version") = false →
      extract_target_version d = "notarget") ∧
    (∀ d : String, d.data.all (fun c => !isAsciiDigit c) = true →
      extract_target_version d = "notarget") := by
  refine ⟨by decide, by decide, by decide, by decide, by decide, by decide,
    fun d h => ?_, fun d h => ?_⟩
  · unfold extract_target_version
    rw [searchVersion_eq_none d.data h]
  · unfold extract_target_version
    rw [searchVersion_eq_none_of_no_digit d.data
      (fun c hc => by simpa using (List.all_eq_true.mp h) c hc)]

/-- C2 witness: the no-heading case and the digit-free
heading-present-token-absent case at concrete descriptions. -/
theorem claim_C2_witness :
    extract_target_version ("hello") = "notarget" ∧
    extract_target_version ("## Target Version\nno version here") = "notarget" :=
  ⟨claim_C2.2.2.2.2.2.2.1 ("hello") (by decide),
    claim_C2.2.2.2.2.2.2.2 ("## Target Version\nno version here") (by decide)⟩

/-- C3: for every merge into an existing file, the previous content with
its trailing whitespace trimmed is a prefix of the content written back
(new content is only appended); and merging the same change set twice
into a fresh separate-mode internal file yields the mode-appropriate
header line exactly once and the identical PR block twice, the second
file again extending the right-stripped first. -/
theorem claim_C3 :
    (∀ (cfg : Config) (c version section_type : String)
        (changes : List ChangeItem) (pr_number pr_title : String)
        (related_issues : List String),
      ∃ s, update_changelog_file cfg (some c) version section_type changes
          pr_number pr_title related_issues = pyRStrip c ++ s) ∧
    strCount demoSepTwice ("# v1.0.0 Internal Changelog") = 1 ∧
    strCount demoSepTwice ("## PR #1: T") = 2 ∧
    (∃ s, demoSepTwice = pyRStrip demoSepOnce ++ s) :=
  ⟨fun cfg c v st ch pn pt ri => ⟨_, rfl⟩, by decide, by decide, ⟨_, rfl⟩⟩

/-- C4: in single-file mode, whether a heading for this raw version
already occurs in the file decides exactly whether the version heading
is re-emitted: with it present the appended block starts right after the
right-stripped content, and with it absent the same block is preceded by
the version heading; concretely, two single-file merges of PRs targeting
v1.0.0 leave exactly one `## v1.0.0` heading and two PR sub-blocks. -/
theorem claim_C4 :
    (∀ (cfg : Config) (ex1 ex2 version section_type : String)
        (changes : List ChangeItem) (pr_number pr_title : String)
        (related_issues : List String),
      cfg.single_file = true →
      strContains ex1 ("## " ++ version) = true →
      strContains ex2 ("## " ++ version) = false →
      ∃ t,
        update_changelog_file cfg (some ex1) version section_type changes
            pr_number pr_title related_issues = pyRStrip ex1 ++ t ∧
        update_changelog_file cfg (some ex2) version section_type changes
            pr_number pr_title related_issues =
          pyRStrip ex2 ++ ("\n\n## " ++ get_version_with_date cfg version ++ "\n" ++ t)) ∧
    strCount demoSingleTwice ("## v1.0.0") = 1 ∧
    strCount demoSingleTwice ("### PR #") = 2 := by
  refine ⟨fun cfg ex1 ex2 v st ch pn pt ri h1 hc1 hc2 => ?_, by decide, by decide⟩
  refine ⟨mergePrPart cfg st pn pt ++
    (mergeIssuesPart cfg st ri ++
      categoriesPart cfg.single_file (changesByCategory ch)), ?_, ?_⟩
  · simp [update_changelog_file, mergeBaseContent, mergeVersionPart,
      versionHeadingPresent, h1, hc1]
  · simp [update_changelog_file, mergeBaseContent, mergeVersionPart,
      versionHeadingPresent, h1, hc2, String.append_assoc]

/-- C4 witness: concrete existing contents with and without the
`## v1.0.0` heading. -/
theorem claim_C4_witness :
    ∃ t,
      update_changelog_file cfgSingle (some ("## v1.0.0 x")) ("v1.0.0")
          ("internal") [] ("1") ("T") [] = pyRStrip ("## v1.0.0 x") ++ t ∧
      update_changelog_file cfgSingle (some ("x")) ("v1.0.0")
          ("internal") [] ("1") ("T") [] =
        pyRStrip ("x") ++
          ("\n\n## " ++ get_version_with_date cfgSingle ("v1.0.0") ++ "\n" ++ t) :=
  claim_C4.1 cfgSingle ("## v1.0.0 x") ("x") ("v1.0.0") ("internal") []
    ("1") ("T") [] rfl (by decide) (by decide)

/-- C5: the canonical related-issues block yields `123` (the `#`
stripped) followed by `JIRA-456` in order; comment lines without
references contribute nothing and a `---` divider ends the block; within
one line all numeric matches precede the ticket-style matches, in found
order, and duplicates are preserved across and within lines. -/
theorem claim_C5 :
    extract_related_issues ("## Related Issues\nCloses #123\nJIRA-456") =
      ["123", "JIRA-456"] ∧
    extract_related_issues
        ("## Related Issues\n\n<!-- Link -->\n#123\nJIRA-456\n\n---\nmore") =
      ["123", "JIRA-456"] ∧
    extract_related_issues ("## Related Issues\n#5 JIRA-1 #5\n#5") =
      ["5", "5", "JIRA-1", "5"] := by decide

/-- C6: the written content decomposes around the related-issues line:
for every configuration and argument set there are surrounding strings,
independent of the issue list, such that the line
`**Related Issues:** ...` is inserted exactly when the block is not
client-type or the layout is single-file, and the issue list is
non-empty; concretely the line is absent for a separate client block and
for an empty issue list, and present for a separate internal block and
in single-file mode. -/
theorem claim_C6 :
    (∀ (cfg : Config) (existing : Option String) (version section_type : String)
        (changes : List ChangeItem) (pr_number pr_title : String),
      ∃ pre post,
        ∀ related_issues : List String,
          update_changelog_file cfg existing version section_type changes
              pr_number pr_title related_issues =
            pre ++
              ((if (section_type != "client" || cfg.single_file) &&
                    !related_issues.isEmpty then
                  "\n**Related Issues:** " ++ joinComma related_issues ++ "\n"
                else "") ++ post)) ∧
    strContains
      (update_changelog_file cfgSeparate none ("v1.0.0") ("client") [demoItem]
        ("1") ("T") ["123", "JIRA-456"]) ("**Related Issues:**") = false ∧
    strContains
      (update_changelog_file cfgSeparate none ("v1.0.0") ("internal") [demoItem]
        ("1") ("T") ["123", "JIRA-456"]) ("**Related Issues:**") = true ∧
    strContains
      (update_changelog_file cfgSingle none ("v1.0.0") ("client") [demoItem]
        ("1") ("T") ["123"]) ("**Related Issues:**") = true ∧
    strContains
      (update_changelog_file cfgSeparate none ("v1.0.0") ("internal") [demoItem]
        ("1") ("T") []) ("**Related Issues:**") = false := by
  refine ⟨fun cfg ex v st ch pn pt => ?_, by decide, by decide, by decide, by decide⟩
  refine ⟨pyRStrip (mergeBaseContent cfg ex (get_version_with_date cfg v) st) ++
    mergeVersionPart cfg (mergeBaseContent cfg ex (get_version_with_date cfg v) st)
      v (get_version_with_date cfg v) ++ mergePrPart cfg st pn pt,
    categoriesPart cfg.single_file (changesByCategory ch), fun ri => ?_⟩
  simp [update_changelog_file, mergeIssuesPart, String.append_assoc]

/-- C7: when the PR fetch fails, the run exits immediately with status 1;
the outcome records no merge call, so no changelog file is written or
modified, and no retry occurs. -/
theorem claim_C7 (cfg : Config) (fs : String → Option String) :
    run cfg FetchResult.failure fs = RunOutcome.exited 1 := rfl

/-- C8: in unified or single-file layout, a unified-format value that is
neither `client` nor `internal` makes the run invoke the merger exactly
once with section type `client`. -/
theorem claim_C8 (cfg : Config) (d title : String) (fs : String → Option String)
    (hmode : cfg.unified_changelog = true ∨ cfg.single_file = true)
    (hfc : (cfg.unified_format == "client") = false)
    (hfi : (cfg.unified_format == "internal") = false)
    (hd : (d == "") = false)
    (hch : (extract_changelog_section d ("Client-Facing Changes") ++
        extract_changelog_section d ("Internal Changes")).isEmpty = false) :
    ∃ call : MergeCall,
      run cfg (FetchResult.success (some d) title) fs =
        RunOutcome.completed [call] ∧
      call.section_type = "client" := by
  refine ⟨(mergeStep cfg fs (extract_target_version d) ("client")
    (extract_changelog_section d ("Client-Facing Changes") ++
      extract_changelog_section d ("Internal Changes")) title
    (extract_related_issues d)).1, ?_, rfl⟩
  rcases hmode with h | h <;>
    simp [run, get_pr_description, descriptionFalsy, hd, h, hch, hfc, hfi]

/-- C8 witness: a single-file configuration with the unified format set
to an unknown value, on a description with one internal bullet. -/
theorem claim_C8_witness :
    ∃ call : MergeCall,
      run { cfgSingle with unified_format := "bogus" }
          (FetchResult.success (some ("### Internal Changes\n- **A**: xy")) ("T"))
          (fun _ => none) =
        RunOutcome.completed [call] ∧
      call.section_type = "client" :=
  claim_C8 { cfgSingle with unified_format := "bogus" }
    ("### Internal Changes\n- **A**: xy") ("T") (fun _ => none)
    (Or.inr rfl) (by decide) (by decide) (by decide) (by decide)

/-- C9: a successfully fetched but empty or absent PR body takes the same
exit path as a fetch failure: exit status 1, no merge call, outcomes
indistinguishable at the public interface. -/
theorem claim_C9 (cfg : Config) (title : String) (fs : String → Option String) :
    run cfg (FetchResult.success (some ("")) title) fs = RunOutcome.exited 1 ∧
    run cfg (FetchResult.success none title) fs = RunOutcome.exited 1 ∧
    run cfg (FetchResult.success (some ("")) title) fs =
      run cfg FetchResult.failure fs :=
  ⟨rfl, rfl, rfl⟩

/-- A single-file changelog whose only version heading is `## v1.2.30`:
the new version `v1.2.3` is a textual prefix of it. -/
def exPrefixFile : String := "# Changelog\n\n## v1.2.30\n\n### A\n\n- old\n"

/-- A single-file changelog with an unrelated version heading. -/
def exOtherFile : String := "# Changelog\n\n## v9.9.9\n"

/-- C10: the single-file existing-version check is a substring match on
the raw version token: `exPrefixFile` has no `## v1.2.3` heading line,
yet contains `## v1.2.3` inside its `## v1.2.30` heading, and merging
version v1.2.3 into it emits no new version heading (the appended block
follows the right-stripped content directly), while the same merge into
a file without such an occurrence is preceded by the `## v1.2.3`
heading. -/
theorem claim_C10 :
    strContains exPrefixFile ("## v1.2.3") = true ∧
    (strLines exPrefixFile).contains ("## v1.2.3") = false ∧
    (∃ t,
      update_changelog_file cfgSingle (some exPrefixFile) ("v1.2.3")
          ("internal") [{ category := "A", text := "new" }] ("7") ("T") [] =
        pyRStrip exPrefixFile ++ t ∧
      update_changelog_file cfgSingle (some exOtherFile) ("v1.2.3")
          ("internal") [{ category := "A", text := "new" }] ("7") ("T") [] =
        pyRStrip exOtherFile ++ ("\n\n## v1.2.3\n" ++ t)) :=
  ⟨by decide, by decide,
    ⟨"\n\n### PR #7: T\n\n### A\n\n- new\n", by decide, by decide⟩⟩
